import Mathlib

/-!
Verification development for the aps-simple-viewer-nodejs model-translation
core: the manifest parser, status-message aggregation, result-directory
allocation, the identifier codec (urnify), the translation-job builder and
the manifest fetcher, as implemented in src/routes/models.js and the APS API
wrapper module.

Modelling conventions: manifest fields that the JavaScript code tests for
truthiness (derivatives, children, outputType, messages) are modelled as
Option values, with none standing for an absent / null / undefined field;
note that in JavaScript an empty array is truthy, so a present-but-empty
list is some [] and passes those truthiness tests. Fields that the code only
reads or compares to string literals (name, role, type, urn, progress,
status) are modelled as plain strings. Filesystem directory creation is
modelled as always succeeding: the code paths that report a failure of
fs.mkdirSync are not modelled, only the path computation and the
empty-name check are.
-/

/-- Char-list test for pattern occurring at the head of the list. -/
def leadMatch : List Char → List Char → Bool
  | [], _ => true
  | _ :: _, [] => false
  | p :: ps, c :: cs => p == c && leadMatch ps cs

/-- Char-list test for pattern occurring anywhere in the list. -/
def containsSeq : List Char → List Char → Bool
  | pat, [] => pat.isEmpty
  | pat, c :: cs => leadMatch pat (c :: cs) || containsSeq pat cs

/-- Substring test, modelling the JavaScript String.prototype.includes
method: true exactly when pat occurs contiguously in s (the empty pattern
occurs in every string). -/
def strContains (s pat : String) : Bool :=
  containsSeq pat.toList s.toList

/-- Child node of a manifest derivative (DerivativeChild). -/
structure Child where
  role : String := ""
  type : String := ""
  urn : String := ""
  messages : Option (List String) := none
deriving DecidableEq, Repr

/-- Top-level derivative node of a manifest. -/
structure Derivative where
  outputType : Option String := none
  progress : String := ""
  status : String := ""
  name : String := ""
  children : Option (List Child) := none
  messages : Option (List String) := none
deriving DecidableEq, Repr

/-- The manifest document returned by the remote translation service. -/
structure Manifest where
  status : String := ""
  progress : String := ""
  derivatives : Option (List Derivative) := none
deriving DecidableEq, Repr

/-- The summary record built by parseManifest in src/routes/models.js.
The spec calls sqLiteUrn the propertyDbUrn and propertiesUrn the
modelDataUrn. -/
structure ParsedManifest where
  cadFileName : String := ""
  sqLiteUrn : String := ""
  propertiesUrn : String := ""
deriving DecidableEq, Repr

/-- Result of parseManifest: either the summary object or an Error value,
matching the instanceof-Error branching done by the callers. -/
inductive ParseResult where
  | ok (s : ParsedManifest)
  | err (msg : String)
deriving DecidableEq, Repr

/-- The completeness filter derivativeIsOk of src/routes/models.js:
outputType contains "svf" (via optional chaining, absent outputType is
falsy), progress is "complete", status is "success", and children is
present (an empty children array is truthy in JavaScript, hence isSome). -/
def derivativeIsOk (d : Derivative) : Bool :=
  (match d.outputType with
   | some t => strContains t "svf"
   | none => false)
  && d.progress == "complete"
  && d.status == "success"
  && d.children.isSome

/-- Body of the inner child loop of parseManifest: overwrites sqLiteUrn
on a role match with the property-database tag and propertiesUrn on a
role match with the model-data tag; the type field of the child is not
consulted. -/
def parseChild (a : ParsedManifest) (c : Child) : ParsedManifest :=
  let a1 := if c.role == "Autodesk.CloudPlatform.PropertyDatabase"
    then { a with sqLiteUrn := c.urn } else a
  if c.role == "Autodesk.AEC.ModelData"
    then { a1 with propertiesUrn := c.urn } else a1

/-- Inner child loop of parseManifest: scans the children in order. -/
def parseChildren (acc : ParsedManifest) (cs : List Child) : ParsedManifest :=
  cs.foldl parseChild acc

/-- Body of the outer derivative loop of parseManifest: a node failing the
completeness filter leaves the accumulator unchanged; a passing node
overwrites cadFileName with its name and then runs the child scan. -/
def parseDeriv (acc : ParsedManifest) (d : Derivative) : ParsedManifest :=
  if derivativeIsOk d then
    parseChildren { acc with cadFileName := d.name } (d.children.getD [])
  else acc

/-- Function parseManifest of src/routes/models.js. The argument none
models a null manifest. The derivatives truthiness test only fires when
the field is absent; a present empty derivatives array proceeds to the
loop, which then runs zero times. -/
def parseManifest : Option Manifest → ParseResult
  | none => .err "no manifest received"
  | some m =>
    match m.derivatives with
    | none => .err "manifest has no derivatives"
    | some ds => .ok (ds.foldl parseDeriv {})

/-- Message aggregation loop of the GET status route in
src/routes/models.js. For each top-level derivative the route reassigns
messages = messages.concat(derivative.messages or []). Inside the child
loop, however, the source calls messages.concat(child.messages or [])
WITHOUT assigning the result, and Array.prototype.concat does not mutate
its receiver, so the child loop leaves the accumulator unchanged; the
discarded value is kept here as a dead let binding to mirror the source. -/
def statusMessages (m : Manifest) : List String :=
  match m.derivatives with
  | none => []
  | some ds =>
    ds.foldl (fun messages d =>
      let messages := messages ++ d.messages.getD []
      match d.children with
      | some cs =>
        cs.foldl (fun acc c =>
          let _dropped := acc ++ c.messages.getD []
          acc) messages
      | none => messages) []

/-- JSON body produced by the GET status route: the not-found branch sends
only a status field, modelled by progress and messages being none. -/
structure StatusResponse where
  status : String
  progress : Option String := none
  messages : Option (List String) := none
deriving DecidableEq, Repr

/-- Function getManifest of the APS wrapper module: the remote call either
yields a manifest or fails with an HTTP status code; a 404 is converted to
the null (none) outcome, every other failure is rethrown. -/
def getManifest : Except Nat Manifest → Except Nat (Option Manifest)
  | .ok m => .ok (some m)
  | .error 404 => .ok none
  | .error e => .error e

/-- The GET status route of src/routes/models.js, as a function of the
remote manifest-fetch outcome: a rethrown fetch error propagates to the
error middleware, a null manifest answers with status n/a, and otherwise
the manifest status, progress and aggregated messages are sent. -/
def statusRoute (remote : Except Nat Manifest) : Except Nat StatusResponse :=
  match getManifest remote with
  | .error e => .error e
  | .ok none => .ok { status := "n/a" }
  | .ok (some m) =>
    .ok { status := m.status, progress := some m.progress,
          messages := some (statusMessages m) }

/-- Input section of a translation job payload. -/
structure JobInput where
  urn : String
  compressedUrn : Option Bool := none
  rootFilename : Option String := none
deriving DecidableEq, Repr

/-- One output format entry of a translation job payload. -/
structure JobFormat where
  type : String
  views : List String
deriving DecidableEq, Repr

/-- Translation job payload. -/
structure Job where
  input : JobInput
  formats : List JobFormat
deriving DecidableEq, Repr

/-- Job object built by translateObject of the APS wrapper module: fixed
svf2 output with 2d and 3d views; when rootFilename is truthy (a non-empty
string) the input is flagged as a compressed archive and the root filename
is recorded. -/
def translateObject (urn rootFilename : String) : Job :=
  let job : Job :=
    { input := { urn := urn },
      formats := [{ type := "svf2", views := ["2d", "3d"] }] }
  if rootFilename ≠ "" then
    { job with input :=
        { job.input with compressedUrn := some true,
                         rootFilename := some rootFilename } }
  else job

/-- Splits a character list into slash-separated segments. -/
def slashSegs : List Char → List Char → List String
  | [], cur => [String.mk cur.reverse]
  | c :: cs, cur =>
    if c = '/' then String.mk cur.reverse :: slashSegs cs []
    else slashSegs cs (c :: cur)

/-- POSIX path.basename as used on cadFileName: the last non-empty
segment of the slash-separated path, or the empty string when there is
none (empty input or a string of slashes only). -/
def basename (p : String) : String :=
  ((slashSegs p.toList []).filter (fun s => s != "")).getLastD ""

/-- Directory of the routes module (__dirname), modelled as an arbitrary
fixed absolute path given as its list of segments. -/
def dirnameSegs : List String := ["app", "routes"]

/-- The fixed base results location path.join(__dirname, "..", "results"). -/
def baseResultDir : List String := dirnameSegs.dropLast ++ ["results"]

/-- Normalising path.join of one extra slash-free segment onto an already
normalised absolute directory: empty and dot segments resolve to the
directory itself, a dot-dot segment resolves to its parent, and any other
segment is appended. -/
def joinSegment (base : List String) (seg : String) : List String :=
  if seg = "" ∨ seg = "." then base
  else if seg = ".." then base.dropLast
  else base ++ [seg]

/-- Result of createResultDirectory: a directory path (as segments) or an
Error value. -/
inductive DirResult where
  | ok (dir : List String)
  | err (msg : String)
deriving DecidableEq, Repr

/-- Function createResultDirectory of src/routes/models.js: a falsy
(empty) cadFileName is rejected; otherwise the returned directory is
path.join of the fixed base results directory with the basename of
cadFileName. Directory creation itself is modelled as succeeding, so the
two mkdir-failure Error branches are not modelled. -/
def createResultDirectory (cadFileName : String) : DirResult :=
  if cadFileName = "" then .err "No CAD file name provided."
  else .ok (joinSegment baseResultDir (basename cadFileName))

/-- The base64 alphabet in order, as a list of characters. -/
def b64alphabet : List Char :=
  "ABCDEFGHIJKLMNOPQRSTUVWXYZabcdefghijklmnopqrstuvwxyz0123456789+/".toList

/-- Character for one 6-bit value. -/
def b64char (n : Nat) : Char := b64alphabet.getD n 'A'

/-- Index of a base64 character in the alphabet, used only to state and
prove the decoding round trip. -/
def b64val (c : Char) : Nat := b64alphabet.indexOf c

/-- Standard base64 encoding of a byte sequence, with = padding, three
input bytes per four output characters. -/
def base64Encode : List Nat → List Char
  | [] => []
  | [a] => [b64char (a / 4), b64char (a % 4 * 16), '=', '=']
  | [a, b] => [b64char (a / 4), b64char (a % 4 * 16 + b / 16),
               b64char (b % 16 * 4), '=']
  | a :: b :: c :: rest =>
    b64char (a / 4) :: b64char (a % 4 * 16 + b / 16) ::
    b64char (b % 16 * 4 + c / 64) :: b64char (c % 64) :: base64Encode rest

/-- Function urnify of the APS wrapper module: base64-encode the byte
sequence of the object id (Buffer.from followed by toString base64) and
delete every = character. The storage identifier is modelled as its UTF-8
byte sequence. -/
def urnify (id : List Nat) : List Char :=
  (base64Encode id).filter (fun c => c != '=')

/-- Decoder for padding-stripped base64, used to establish injectivity of
urnify: four characters yield three bytes, a trailing pair or triple of
characters yields the final one or two bytes. -/
def base64Decode : List Char → List Nat
  | w :: x :: y :: z :: rest =>
    (b64val w * 4 + b64val x / 16) ::
    (b64val x % 16 * 16 + b64val y / 4) ::
    (b64val y % 4 * 64 + b64val z) :: base64Decode rest
  | [w, x] => [b64val w * 4 + b64val x / 16]
  | [w, x, y] => [b64val w * 4 + b64val x / 16,
                  b64val x % 16 * 16 + b64val y / 4]
  | _ => []

/-- Untyped JavaScript value, for the totality analysis of parseManifest
over arbitrary (also malformed) manifest inputs. -/
inductive JsVal where
  | undefined
  | null
  | bool (b : Bool)
  | num (n : Int)
  | str (s : String)
  | arr (elems : List JsVal)
  | obj (fields : List (String × JsVal))

/-- JavaScript truthiness of a value (NaN is not modelled). -/
def JsVal.truthy : JsVal → Bool
  | .undefined => false
  | .null => false
  | .bool b => b
  | .num n => n != 0
  | .str s => s != ""
  | .arr _ => true
  | .obj _ => true

/-- Property access v.k with JavaScript exception semantics: reading a
property of null or undefined throws a TypeError, reading a missing
property (or any property of a primitive, whose own properties the parser
never hits) yields undefined. -/
def JsVal.get : JsVal → String → Except String JsVal
  | .undefined, k => .error ("TypeError: cannot read properties of undefined (reading " ++ k ++ ")")
  | .null, k => .error ("TypeError: cannot read properties of null (reading " ++ k ++ ")")
  | .obj fs, k =>
    match fs.find? (fun f => f.1 == k) with
    | some f => .ok f.2
    | none => .ok .undefined
  | _, _ => .ok .undefined

/-- Loose equality v == s against one of the non-numeric string literals
the parser compares with: it holds exactly for the equal string, since
coercing any non-string operand can never produce these literals. -/
def jsEqStr (v : JsVal) (s : String) : Bool :=
  match v with
  | .str t => t == s
  | _ => false

/-- The call v?.includes("svf") on the outputType value: undefined or null
short-circuits to undefined (falsy), a string does a substring test, an
array does an element test, and any other value throws because it has no
includes method. -/
def jsIncludesSvf : JsVal → Except String JsVal
  | .undefined => .ok .undefined
  | .null => .ok .undefined
  | .str t => .ok (.bool (strContains t "svf"))
  | .arr xs => .ok (.bool (xs.any (fun x => jsEqStr x "svf")))
  | _ => .error "TypeError: derivative.outputType.includes is not a function"

/-- A for-of loop head with JavaScript exception semantics: arrays iterate
their elements, strings iterate their characters as one-character strings,
and every other value throws a TypeError for not being iterable. -/
def jsIterate : JsVal → Except String (List JsVal)
  | .arr xs => .ok xs
  | .str s => .ok (s.toList.map (fun c => .str (String.mk [c])))
  | _ => .error "TypeError: value is not iterable"

/-- The completeness filter of parseManifest over untyped values, with the
short-circuit evaluation of the source conjunction: a throw in an earlier
conjunct pre-empts the later ones. -/
def derivativeIsOkJs (d : JsVal) : Except String Bool := do
  let ot ← d.get "outputType"
  let inc ← jsIncludesSvf ot
  if !inc.truthy then return false
  let pr ← d.get "progress"
  if !(jsEqStr pr "complete") then return false
  let st ← d.get "status"
  if !(jsEqStr st "success") then return false
  let ch ← d.get "children"
  return ch.truthy

/-- Return value of parseManifest over untyped values: the summary holds
whatever values were assigned to the three variables (possibly undefined
names or urns), and errVal models a returned Error object. -/
inductive JsParseResult where
  | summary (cadFileName sqLiteUrn propertiesUrn : JsVal)
  | errVal (msg : String)

/-- Body of parseManifest over untyped values, before the surrounding
try/catch: any thrown TypeError propagates as the Except error. -/
def parseManifestJsBody (manifest : JsVal) : Except String JsParseResult := do
  if !manifest.truthy then return .errVal "no manifest received"
  let ds ← manifest.get "derivatives"
  if !ds.truthy then return .errVal "manifest has no derivatives"
  let items ← jsIterate ds
  let folded ← items.foldlM (fun (acc : JsVal × JsVal × JsVal) d => do
    let ok ← derivativeIsOkJs d
    if !ok then return acc
    let name ← d.get "name"
    let children ← d.get "children"
    let citems ← jsIterate children
    let inner ← citems.foldlM (fun (a : JsVal × JsVal) c => do
      let role ← c.get "role"
      let a1 ← if jsEqStr role "Autodesk.CloudPlatform.PropertyDatabase"
        then do let urn ← c.get "urn"; pure (urn, a.2)
        else pure a
      if jsEqStr role "Autodesk.AEC.ModelData"
        then do let urn ← c.get "urn"; pure (a1.1, urn)
        else pure a1) (acc.2.1, acc.2.2)
    return (name, inner.1, inner.2))
    (.str "", .str "", .str "")
  return .summary folded.1 folded.2.1 folded.2.2

/-- Function parseManifest of src/routes/models.js over untyped values:
the try/catch converts every thrown error into a returned Error value. -/
def parseManifestJs (manifest : JsVal) : JsParseResult :=
  match parseManifestJsBody manifest with
  | .ok r => r
  | .error e => .errVal e

/-- Helper: a child-type rewrite. -/
def setChildType (t : String) (c : Child) : Child := { c with type := t }

/-- Helper: rewrite the type field of every child of every derivative of a
manifest. -/
def setManifestChildTypes (t : String) (m : Manifest) : Manifest :=
  { m with derivatives := m.derivatives.map (fun ds => ds.map (fun d =>
      { d with children := d.children.map (fun cs => cs.map (setChildType t)) })) }

/-- Helper: a complete svf derivative whose children carry both resource
urns, used as the earlier passing node in the last-writer analysis. -/
def dEarly : Derivative :=
  { outputType := some "svf", progress := "complete", status := "success",
    name := "early.rvt", children := some [
      { role := "Autodesk.CloudPlatform.PropertyDatabase", type := "resource", urn := "U1" },
      { role := "Autodesk.AEC.ModelData", type := "resource", urn := "U2" }] }

/-- Helper: a complete svf derivative with an empty children array (which
is truthy, so the completeness filter passes), used as the later passing
node in the last-writer analysis. -/
def dLate : Derivative :=
  { outputType := some "svf", progress := "complete", status := "success",
    name := "late.rvt", children := some [] }

theorem parseChild_setChildType (t : String) (a : ParsedManifest) (c : Child) :
    parseChild a (setChildType t c) = parseChild a c := rfl

theorem parseChildren_map_type (t : String) (acc : ParsedManifest) (cs : List Child) :
    parseChildren acc (cs.map (setChildType t)) = parseChildren acc cs := by
  induction cs generalizing acc with
  | nil => rfl
  | cons c cs ih =>
    simp only [List.map_cons, parseChildren, List.foldl_cons, parseChild_setChildType]
    exact ih (parseChild acc c)

theorem derivativeIsOk_map_type (t : String) (d : Derivative) :
    derivativeIsOk { d with children := d.children.map (fun cs => cs.map (setChildType t)) }
      = derivativeIsOk d := by
  cases h : d.children <;> simp [derivativeIsOk, h]

theorem parseDeriv_map_type (t : String) (acc : ParsedManifest) (d : Derivative) :
    parseDeriv acc { d with children := d.children.map (fun cs => cs.map (setChildType t)) }
      = parseDeriv acc d := by
  unfold parseDeriv
  rw [derivativeIsOk_map_type]
  cases h : d.children with
  | none => simp [h]
  | some cs => simp [h, parseChildren_map_type]

/-- C1: the single complete svf derivative of the house.rvt manifest, with
a property-database child U1 and a model-data child U2, parses to the
summary with cadFileName house.rvt, property-database urn U1 and
model-data urn U2 (named sqLiteUrn and propertiesUrn in the code), and not
to an Error value. -/
theorem parseManifest_house_example :
    parseManifest (some { derivatives := some [
      { outputType := some "svf", progress := "complete", status := "success",
        name := "house.rvt", children := some [
          { role := "Autodesk.CloudPlatform.PropertyDatabase", type := "resource", urn := "U1" },
          { role := "Autodesk.AEC.ModelData", type := "resource", urn := "U2" }] }] })
      = .ok { cadFileName := "house.rvt", sqLiteUrn := "U1", propertiesUrn := "U2" } := by
  decide

/-- C2 counterexample: a child of a passing derivative whose role is the
property-database tag but whose type is thumbnail, not resource, still has
its urn X captured as sqLiteUrn, contradicting the claim that such a child
is never captured. -/
theorem parseManifest_child_type_counterexample :
    parseManifest (some { derivatives := some [
      { outputType := some "svf", progress := "complete", status := "success",
        name := "a.rvt", children := some [
          { role := "Autodesk.CloudPlatform.PropertyDatabase", type := "thumbnail", urn := "X" }] }] })
      = .ok { cadFileName := "a.rvt", sqLiteUrn := "X", propertiesUrn := "" } ∧
    parseManifest (some { derivatives := some [
      { outputType := some "svf", progress := "complete", status := "success",
        name := "a.rvt", children := some [
          { role := "Autodesk.CloudPlatform.PropertyDatabase", type := "thumbnail", urn := "X" }] }] })
      ≠ .ok { cadFileName := "a.rvt", sqLiteUrn := "", propertiesUrn := "" } := by
  decide

/-- C2 amended: parseManifest never consults the type field of a child at
all; its result is invariant under rewriting every child type to an
arbitrary string, so a role-matching child is captured (or not) regardless
of whether its type equals resource. -/
theorem parseManifest_ignores_child_type (t : String) (om : Option Manifest) :
    parseManifest (om.map (setManifestChildTypes t)) = parseManifest om := by
  cases om with
  | none => rfl
  | some m =>
    cases h : m.derivatives with
    | none => simp [parseManifest, setManifestChildTypes, h]
    | some ds =>
      simp only [Option.map_some', parseManifest, setManifestChildTypes, h, Option.map]
      rw [List.foldl_map]
      refine congrArg ParseResult.ok (List.foldl_ext _ _ _ ?_)
      intro acc d _
      exact parseDeriv_map_type t acc d

/-- C3 counterexample: a manifest whose derivatives field is present but
an empty sequence does not yield the manifest-has-no-derivatives Error (an
empty array is truthy in JavaScript); it yields the all-empty summary. -/
theorem parseManifest_empty_derivatives_counterexample :
    parseManifest (some { derivatives := some [] })
      = .ok { cadFileName := "", sqLiteUrn := "", propertiesUrn := "" } ∧
    parseManifest (some { derivatives := some [] })
      ≠ .err "manifest has no derivatives" := by
  decide

/-- C3 amended: the manifest-has-no-derivatives Error is produced exactly
when the derivatives field is absent; a present-but-empty derivatives
sequence instead parses to the summary whose three fields are all empty. -/
theorem parseManifest_no_derivatives_error :
    (∀ st pr, parseManifest (some { status := st, progress := pr, derivatives := none })
      = .err "manifest has no derivatives") ∧
    (∀ st pr, parseManifest (some { status := st, progress := pr, derivatives := some [] })
      = .ok { cadFileName := "", sqLiteUrn := "", propertiesUrn := "" }) := by
  exact ⟨fun st pr => rfl, fun st pr => rfl⟩

/-- C4: evaluation of the status-route message aggregation at a manifest
with one derivative carrying its own message and one child message: the
child message is dropped, because the source discards the result of the
concat call in the child loop, so the aggregated list is not the claimed
parent-then-child concatenation. -/
theorem statusMessages_drops_child_messages :
    statusMessages { derivatives := some [
      { messages := some ["parent msg"],
        children := some [{ messages := some ["child msg"] }] }] }
      = ["parent msg"] ∧
    "child msg" ∉ statusMessages { derivatives := some [
      { messages := some ["parent msg"],
        children := some [{ messages := some ["child msg"] }] }] } := by
  decide

/-- C7: whenever the manifest fetch resolves to the NotFound outcome (the
remote service answered 404, which getManifest maps to a null manifest),
the status route answers with the bare status n/a value instead of
propagating an error. -/
theorem statusRoute_notFound (remote : Except Nat Manifest)
    (h : getManifest remote = .ok none) :
    statusRoute remote = .ok { status := "n/a" } := by
  simp [statusRoute, h]

/-- C7 witness: a remote 404 is mapped to the NotFound outcome, and the
status route then answers n/a. -/
theorem statusRoute_notFound_witness :
    getManifest (.error 404) = .ok none ∧
    statusRoute (.error 404) = .ok { status := "n/a" } :=
  ⟨rfl, statusRoute_notFound (.error 404) rfl⟩

/-- C8: every translation job built by translateObject carries the fixed
output specification svf2 with views 2d and 3d, and the compressed-archive
flag together with the recorded root filename are present exactly when the
rootFilename argument is non-empty. -/
theorem translateObject_spec (urn rootFilename : String) :
    (translateObject urn rootFilename).formats
      = [{ type := "svf2", views := ["2d", "3d"] }] ∧
    (translateObject urn rootFilename).input.urn = urn ∧
    ((translateObject urn rootFilename).input.compressedUrn = some true ∧
      (translateObject urn rootFilename).input.rootFilename = some rootFilename
      ↔ rootFilename ≠ "") := by
  by_cases h : rootFilename = "" <;> simp [translateObject, h]

/-- C9: over arbitrary untyped input values, including malformed manifests
whose derivatives field is not iterable, parseManifest always returns a
value, either a summary or an Error value, because its try/catch converts
every thrown TypeError into a returned Error; in particular the
non-iterable-derivatives input throws inside the body and is still
returned as an Error value. -/
theorem parseManifestJs_total :
    (∀ v : JsVal, (∃ c s p, parseManifestJs v = .summary c s p) ∨
      (∃ m, parseManifestJs v = .errVal m)) ∧
    parseManifestJsBody (.obj [("derivatives", .num 5)])
      = .error "TypeError: value is not iterable" ∧
    parseManifestJs (.obj [("derivatives", .num 5)])
      = .errVal "TypeError: value is not iterable" := by
  refine ⟨fun v => ?_, rfl, rfl⟩
  cases h : parseManifestJs v with
  | summary c s p => exact .inl ⟨c, s, p, rfl⟩
  | errVal m => exact .inr ⟨m, rfl⟩

theorem foldl_parseDeriv_skip (ds : List Derivative) (acc : ParsedManifest)
    (h : ∀ e ∈ ds, derivativeIsOk e = false) :
    ds.foldl parseDeriv acc = acc := by
  induction ds generalizing acc with
  | nil => rfl
  | cons e es ih =>
    have he : derivativeIsOk e = false := h e (by simp)
    simp only [List.foldl_cons, parseDeriv, he, Bool.false_eq_true, if_false]
    exact ih acc (fun x hx => h x (by simp [hx]))

theorem parseChildren_no_match (cs : List Child) (acc : ParsedManifest)
    (h1 : ∀ c ∈ cs, c.role ≠ "Autodesk.CloudPlatform.PropertyDatabase")
    (h2 : ∀ c ∈ cs, c.role ≠ "Autodesk.AEC.ModelData") :
    parseChildren acc cs = acc := by
  induction cs generalizing acc with
  | nil => rfl
  | cons c cs ih =>
    have hc1 := h1 c (by simp)
    have hc2 := h2 c (by simp)
    have hstep : parseChild acc c = acc := by simp [parseChild, hc1, hc2]
    simp only [parseChildren, List.foldl_cons, hstep]
    exact ih acc (fun x hx => h1 x (by simp [hx])) (fun x hx => h2 x (by simp [hx]))

/-- C10: parseManifest never resets a field between derivative nodes.
With ds1 the earlier derivatives (at least one of them passing the
completeness filter), d the last passing node and ds2 the failing
remainder, cadFileName is the name of d, while sqLiteUrn and
propertiesUrn keep exactly the values accumulated over ds1 when d has no
role-matching child, so the three summary fields can originate from
different derivative nodes. -/
theorem parseManifest_field_provenance (st pr : String) (ds1 ds2 : List Derivative)
    (d : Derivative)
    (hd : derivativeIsOk d = true)
    (h2 : ∀ e ∈ ds2, derivativeIsOk e = false)
    (_hprev : ∃ e ∈ ds1, derivativeIsOk e = true)
    (hpdb : ∀ c ∈ d.children.getD [], c.role ≠ "Autodesk.CloudPlatform.PropertyDatabase")
    (hmd : ∀ c ∈ d.children.getD [], c.role ≠ "Autodesk.AEC.ModelData") :
    parseManifest (some { status := st, progress := pr, derivatives := some (ds1 ++ d :: ds2) })
      = .ok { cadFileName := d.name,
              sqLiteUrn := (ds1.foldl parseDeriv {}).sqLiteUrn,
              propertiesUrn := (ds1.foldl parseDeriv {}).propertiesUrn } := by
  simp only [parseManifest, List.foldl_append, List.foldl_cons]
  rw [foldl_parseDeriv_skip ds2 _ h2]
  simp only [parseDeriv, hd, if_true]
  rw [parseChildren_no_match _ _ hpdb hmd]

/-- C10 witness: with dEarly writing both urns and dLate, childless,
passing the filter last, the parsed summary takes cadFileName from dLate
and both urns from the fold over dEarly alone. -/
theorem parseManifest_field_provenance_witness :
    (derivativeIsOk dLate = true ∧
     (∀ e ∈ ([] : List Derivative), derivativeIsOk e = false) ∧
     (∃ e ∈ [dEarly], derivativeIsOk e = true) ∧
     (∀ c ∈ dLate.children.getD [], c.role ≠ "Autodesk.CloudPlatform.PropertyDatabase") ∧
     (∀ c ∈ dLate.children.getD [], c.role ≠ "Autodesk.AEC.ModelData")) ∧
    parseManifest (some { status := "", progress := "",
                          derivatives := some ([dEarly] ++ dLate :: []) })
      = .ok { cadFileName := dLate.name,
              sqLiteUrn := (([dEarly]).foldl parseDeriv {}).sqLiteUrn,
              propertiesUrn := (([dEarly]).foldl parseDeriv {}).propertiesUrn } :=
  ⟨by decide,
   parseManifest_field_provenance "" "" [dEarly] [] dLate (by decide) (by decide)
     (by decide) (by decide) (by decide)⟩

/-- C6 counterexample: the cadFileName consisting of one dot-dot segment
is non-empty, yet the directory computed for it is the parent of the base
results directory, not a subdirectory named by its basename lying under
the base results directory. -/
theorem createResultDirectory_dotdot_counterexample :
    createResultDirectory ".." = .ok ["app"] ∧
    createResultDirectory ".." ≠ .ok (baseResultDir ++ [basename ".."]) := by
  decide

/-- C6 amended: the empty cadFileName is rejected with the allocation
Error, and every non-empty cadFileName whose basename is not empty, not
dot and not dot-dot gets the directory named by that basename directly
under the fixed base results directory; basenames that are empty, dot or
dot-dot instead resolve to the base directory itself or its parent. -/
theorem createResultDirectory_spec :
    createResultDirectory "" = .err "No CAD file name provided." ∧
    ∀ n, n ≠ "" → basename n ≠ "" → basename n ≠ "." → basename n ≠ ".." →
      createResultDirectory n = .ok (baseResultDir ++ [basename n]) := by
  refine ⟨rfl, fun n h0 h1 h2 h3 => ?_⟩
  simp [createResultDirectory, joinSegment, h0, h1, h2, h3]

/-- C6 witness: the traversal attempt dot-dot slash dot-dot slash etc
passwd is sanitised to the single segment passwd directly under the base
results directory. -/
theorem createResultDirectory_spec_witness :
    ("../../etc/passwd" ≠ "" ∧ basename "../../etc/passwd" ≠ "" ∧
     basename "../../etc/passwd" ≠ "." ∧ basename "../../etc/passwd" ≠ ".." ∧
     basename "../../etc/passwd" = "passwd") ∧
    createResultDirectory "../../etc/passwd"
      = .ok (baseResultDir ++ [basename "../../etc/passwd"]) :=
  ⟨by decide,
   createResultDirectory_spec.2 "../../etc/passwd" (by decide) (by decide)
     (by decide) (by decide)⟩

theorem b64val_b64char : ∀ n, n < 64 → b64val (b64char n) = n := by decide

theorem b64char_ne_pad : ∀ n, n < 64 → (b64char n != '=') = true := by decide

theorem base64Decode_urnify :
    ∀ (bs : List Nat), (∀ b ∈ bs, b < 256) → base64Decode (urnify bs) = bs
  | [], _ => rfl
  | [a], h => by
    have ha : a < 256 := h a (by simp)
    have h1 : a / 4 < 64 := by omega
    have h2 : a % 4 * 16 < 64 := by omega
    simp only [urnify, base64Encode, List.filter, b64char_ne_pad _ h1,
      b64char_ne_pad _ h2]
    simp only [bne_self_eq_false, base64Decode, b64val_b64char _ h1,
      b64val_b64char _ h2, List.cons.injEq, and_true]
    omega
  | [a, b], h => by
    have ha : a < 256 := h a (by simp)
    have hb : b < 256 := h b (by simp)
    have h1 : a / 4 < 64 := by omega
    have h2 : a % 4 * 16 + b / 16 < 64 := by omega
    have h3 : b % 16 * 4 < 64 := by omega
    simp only [urnify, base64Encode, List.filter, b64char_ne_pad _ h1,
      b64char_ne_pad _ h2, b64char_ne_pad _ h3]
    simp only [bne_self_eq_false, base64Decode, b64val_b64char _ h1,
      b64val_b64char _ h2, b64val_b64char _ h3, List.cons.injEq, and_true]
    constructor <;> omega
  | a :: b :: c :: rest, h => by
    have ha : a < 256 := h a (by simp)
    have hb : b < 256 := h b (by simp)
    have hc : c < 256 := h c (by simp)
    have h1 : a / 4 < 64 := by omega
    have h2 : a % 4 * 16 + b / 16 < 64 := by omega
    have h3 : b % 16 * 4 + c / 64 < 64 := by omega
    have h4 : c % 64 < 64 := by omega
    have ih := base64Decode_urnify rest (fun x hx => h x (by simp [hx]))
    simp only [urnify, base64Encode, List.filter, b64char_ne_pad _ h1,
      b64char_ne_pad _ h2, b64char_ne_pad _ h3, b64char_ne_pad _ h4]
    simp only [urnify] at ih
    simp only [base64Decode, b64val_b64char _ h1, b64val_b64char _ h2,
      b64val_b64char _ h3, b64val_b64char _ h4, List.cons.injEq, ih, and_true]
    refine ⟨by omega, by omega, by omega⟩

theorem urnify_inj (a b : List Nat) (ha : ∀ x ∈ a, x < 256) (hb : ∀ x ∈ b, x < 256)
    (hne : a ≠ b) : urnify a ≠ urnify b := by
  intro h
  exact hne (by rw [← base64Decode_urnify a ha, ← base64Decode_urnify b hb, h])

theorem urnify_no_pad (id : List Nat) : '=' ∉ urnify id := by
  intro h
  have hmem := List.mem_filter.mp h
  simp at hmem

/-- C5: urnify (padding-stripped base64 over the UTF-8 byte sequence of
the storage identifier) is injective over byte sequences, distinct inputs
giving distinct job identifiers, and its output never contains the =
character; determinism is definitional since urnify is a pure function. -/
theorem urnify_injective_no_pad (a b : List Nat) (ha : ∀ x ∈ a, x < 256)
    (hb : ∀ x ∈ b, x < 256) (hne : a ≠ b) :
    urnify a ≠ urnify b ∧ '=' ∉ urnify a :=
  ⟨urnify_inj a b ha hb hne, urnify_no_pad a⟩

/-- C5 witness: the two byte sequences of the strings hi and h are
distinct, in byte range, and get distinct padding-free encodings. -/
theorem urnify_injective_no_pad_witness :
    ((∀ x ∈ ([104, 105] : List Nat), x < 256) ∧
     (∀ x ∈ ([104] : List Nat), x < 256) ∧
     ([104, 105] : List Nat) ≠ [104]) ∧
    (urnify [104, 105] ≠ urnify [104] ∧ '=' ∉ urnify [104, 105]) :=
  ⟨by decide, urnify_injective_no_pad [104, 105] [104] (by decide) (by decide) (by decide)⟩
